import Mathlib

/-!
Shallow embedding of the multi-agent retrieval-and-synthesis pipeline in
`src/2_frameworks/2_multi_agent/verbose.py` and
`src/2_frameworks/2_multi_agent/efficient.py` (plus the prompt constants of
`src/prompts.py`).

The model invocations (`agents.Runner.run`) and the knowledge-base are
external capabilities; they are represented by oracle functions supplied as
parameters, with `Except` capturing a Python exception raised by a call
(model failure, timeout, or a `final_output_as` schema-validation failure).
The orchestrator generators are embedded as pure functions from the oracles
to a trace of events: every `yield` of the Python generator, every stage
invocation, and the final outcome (normal return or propagated exception).
-/

/-- Gradio chat message: role plus content (`gradio.components.chatbot.ChatMessage`). -/
structure ChatMessage where
  role : String
  content : String
deriving DecidableEq, Repr

/-- A single search item in the search plan (verbose.py, class SearchItem). -/
structure SearchItem where
  search_term : String
  reasoning : String
deriving DecidableEq, Repr

/-- A search plan containing multiple search items (verbose.py, class SearchPlan).
The pydantic schema constrains only the field shape, not the number of steps. -/
structure SearchPlan where
  search_steps : List SearchItem
deriving DecidableEq, Repr

/-- Rendering of one step inside `SearchPlan.__str__`. -/
def SearchItem.render (s : SearchItem) : String :=
  "Search Term: " ++ s.search_term ++ "\nReasoning: " ++ s.reasoning ++ "\n"

/-- `SearchPlan.__str__` (verbose.py lines 115-120). -/
def SearchPlan.render (p : SearchPlan) : String :=
  String.intercalate "\n" (p.search_steps.map SearchItem.render)

/-- Model for the final report generated by the writer agent
(verbose.py, class ResearchReport, lines 123-131). Its only fields are
`summary` and `full_report`. -/
structure ResearchReport where
  summary : String
  full_report : String
deriving DecidableEq, Repr

/-- Message appended for the user question (`ChatMessage(role="user", content=question)`). -/
def userMessage (q : String) : ChatMessage := ⟨"user", q⟩

/-- Message appended with assistant role. -/
def assistantMessage (c : String) : ChatMessage := ⟨"assistant", c⟩

/-- Assistant message announcing the plan (verbose.py lines 212-214). -/
def planMessage (p : SearchPlan) : ChatMessage :=
  assistantMessage ("Search Plan:\n" ++ p.render)

/-- Assistant message carrying the final report (verbose.py lines 241-246);
its content is built from exactly the two fields of `ResearchReport`. -/
def reportMessage (r : ResearchReport) : ChatMessage :=
  assistantMessage ("Summary:\n" ++ r.summary ++ "\n\nFull Report:\n" ++ r.full_report)

/-- Input string assembled by `_generate_final_report` (verbose.py lines 149-151). -/
def writerInput (query : String) (search_results : List String) : String :=
  "Original question: " ++ query ++ "\n" ++ "Search summaries:\n" ++
    String.intercalate "\n"
      (search_results.enum.map (fun p => toString (p.1 + 1) ++ ". " ++ p.2))

/-- Observable events of one execution of the `verbose._main` generator:
each `yield` of the generator, and each stage call with its input/result. -/
inductive Event where
  | yieldSnapshot : List ChatMessage → Event
  | planCall : String → Event
  | planDone : SearchPlan → Event
  | searchCall : String → Event
  | searchDone : String → Event
  | writeCall : String → Event
  | writeDone : ResearchReport → Event
deriving DecidableEq, Repr

instance {ε α : Type} [DecidableEq ε] [DecidableEq α] : DecidableEq (Except ε α) :=
  fun a b =>
    match a, b with
    | Except.error x, Except.error y => decidable_of_iff (x = y) (by simp)
    | Except.error _, Except.ok _ => isFalse (by simp)
    | Except.ok _, Except.error _ => isFalse (by simp)
    | Except.ok x, Except.ok y => decidable_of_iff (x = y) (by simp)

/-- Trace of one turn: the ordered events plus the generator outcome
(`Except.error` models a propagated Python exception aborting the turn). -/
structure RunTrace where
  events : List Event
  outcome : Except String Unit
deriving DecidableEq, Repr

/-- Oracles for the external model-invocation capability used by verbose.py:
`plannerRun` models `Runner.run(planner_agent, q)` followed by
`final_output_as(SearchPlan)`; `researcherRun` models
`Runner.run(research_agent, term)` returning the step summary
(`final_output`) together with the new transcript items converted by
`oai_agent_items_to_gradio_messages`; `writerRun` models
`Runner.run(writer_agent, input)` followed by `final_output_as(ResearchReport)`. -/
structure VerboseOracle where
  plannerRun : String → Except String SearchPlan
  researcherRun : String → Except String (String × List ChatMessage)
  writerRun : String → Except String ResearchReport

namespace verbose

/-- Loop body of `_main` over `search_plan.search_steps` (verbose.py lines
218-232): for each step, open a span, run the research agent on the step's
search term, append the summary to `search_results`, extend `gr_messages`
with the new items, and yield; an exception from the run propagates and
aborts the loop. -/
def runSteps (o : VerboseOracle) (steps : List SearchItem) (gr : List ChatMessage)
    (acc : List String) : List Event × Except String (List ChatMessage × List String) :=
  match steps with
  | [] => ([], Except.ok (gr, acc))
  | step :: rest =>
    match o.researcherRun step.search_term with
    | Except.error e => ([Event.searchCall step.search_term], Except.error e)
    | Except.ok out =>
      let gr2 := gr ++ out.2
      let rec_pair := runSteps o rest gr2 (acc ++ [out.1])
      (Event.searchCall step.search_term :: Event.searchDone out.1 ::
        Event.yieldSnapshot gr2 :: rec_pair.1, rec_pair.2)

/-- The `_main` async generator of verbose.py (lines 176-248): append the
user message and yield; create the search plan (aborting on failure); append
and yield the plan message; run each search step in plan order; build the
writer input from the collected summaries; run the writer agent; append and
yield the final report message. -/
def _main (o : VerboseOracle) (question : String) (gr0 : List ChatMessage) : RunTrace :=
  let gr1 := gr0 ++ [userMessage question]
  let pre := [Event.yieldSnapshot gr1, Event.planCall question]
  match o.plannerRun question with
  | Except.error e => ⟨pre, Except.error e⟩
  | Except.ok plan =>
    let gr2 := gr1 ++ [planMessage plan]
    let pre2 := pre ++ [Event.planDone plan, Event.yieldSnapshot gr2]
    match runSteps o plan.search_steps gr2 [] with
    | (evs, Except.error e) => ⟨pre2 ++ evs, Except.error e⟩
    | (evs, Except.ok st) =>
      let input := writerInput question st.2
      match o.writerRun input with
      | Except.error e => ⟨pre2 ++ evs ++ [Event.writeCall input], Except.error e⟩
      | Except.ok report =>
        let gr3 := st.1 ++ [reportMessage report]
        ⟨pre2 ++ evs ++
          [Event.writeCall input, Event.writeDone report, Event.yieldSnapshot gr3],
         Except.ok ()⟩

end verbose

/-- Transcript snapshots among a list of events, in order. -/
def eventYields (evs : List Event) : List (List ChatMessage) :=
  evs.filterMap (fun ev =>
    match ev with
    | Event.yieldSnapshot m => some m
    | _ => none)

/-- Transcript snapshots yielded by the generator, in order. -/
def RunTrace.yields (t : RunTrace) : List (List ChatMessage) :=
  eventYields t.events

/-- Whether an event is an invocation of the writer (synthesis) stage. -/
def Event.isWrite : Event → Bool
  | Event.writeCall _ => true
  | Event.writeDone _ => true
  | _ => false

/-- Whether an event is an invocation of the planner stage. -/
def Event.isPlanInvocation : Event → Bool
  | Event.planCall _ => true
  | _ => false

/-- The search term of a research-step invocation event, if it is one. -/
def Event.searchCallTerm : Event → Option String
  | Event.searchCall t => some t
  | _ => none

/-- Expected event block produced by the search-step loop when every
research-agent run succeeds, with `res` giving each step's (summary,
new transcript items) result. -/
def expectedStepEvents (res : SearchItem → String × List ChatMessage) :
    List SearchItem → List ChatMessage → List Event
  | [], _ => []
  | s :: rest, gr =>
    Event.searchCall s.search_term :: Event.searchDone (res s).1 ::
      Event.yieldSnapshot (gr ++ (res s).2) ::
      expectedStepEvents res rest (gr ++ (res s).2)

/-- Per-step summaries collected into `search_results` on the success path. -/
def stepSummaries (res : SearchItem → String × List ChatMessage) (steps : List SearchItem) :
    List String :=
  steps.map (fun s => (res s).1)

/-- All transcript items appended by the step loop on the success path. -/
def stepItems (res : SearchItem → String × List ChatMessage) (steps : List SearchItem) :
    List ChatMessage :=
  (steps.map (fun s => (res s).2)).flatten

/-- Settings passed to an agent's model (`agents.ModelSettings`); only the
`tool_choice` field is used by this repository. The OpenAI Agents SDK
default is no forced tool choice. -/
structure ModelSettings where
  tool_choice : Option String
deriving DecidableEq, Repr

/-- Static configuration of an `agents.Agent` as constructed in the source:
its name, the names of the tools handed to it, and its model settings. -/
structure AgentConfig where
  name : String
  tools : List String
  model_settings : ModelSettings
deriving DecidableEq, Repr

/-- An agent is forced to invoke a tool before producing a final output
exactly when it was constructed with `tool_choice="required"`; without it
the model may answer directly without any tool call. -/
def mustCallTool (a : AgentConfig) : Bool :=
  a.model_settings.tool_choice == some "required"

namespace verbose

/-- The planner agent of verbose.py (lines 177-184): no tools, structured
`SearchPlan` output. -/
def planner_agent : AgentConfig :=
  ⟨"Planner Agent", [], ⟨none⟩⟩

/-- The research agent of verbose.py (lines 185-194): the knowledge-base
search tool, and `ModelSettings(tool_choice="required")`. -/
def research_agent : AgentConfig :=
  ⟨"Research Agent", ["search_knowledgebase"], ⟨some "required"⟩⟩

/-- The writer agent of verbose.py (lines 195-202): no tools, structured
`ResearchReport` output. -/
def writer_agent : AgentConfig :=
  ⟨"Writer Agent", [], ⟨none⟩⟩

end verbose

namespace efficient

/-- The worker agent of efficient.py (lines 74-87): it is handed the
knowledge-base search tool but no `model_settings` argument, so the SDK
default (no forced tool choice) applies. -/
def worker_agent : AgentConfig :=
  ⟨"WorkerAgent", ["search_knowledgebase"], ⟨none⟩⟩

/-- The retriever agent of efficient.py (lines 90-103): the worker agent
exposed as the `kb_search` tool; no forced tool choice. -/
def retriever_agent : AgentConfig :=
  ⟨"RetrieverAgent", ["kb_search"], ⟨none⟩⟩

/-- The main (planner) agent of efficient.py (lines 106-121): the retriever
agent exposed as the `retrieve` tool; no forced tool choice. -/
def main_agent : AgentConfig :=
  ⟨"MainAgent", ["retrieve"], ⟨none⟩⟩

/-- The `_main` generator of efficient.py (lines 125-144): fold over the
stream events of `Runner.run_streamed(main_agent, question)`; each event is
converted by `oai_agent_stream_to_gradio_messages` into a (possibly empty)
list of chat messages (here the oracle input `streamItems`), extended onto
`gr_messages` in place, and the accumulated list is yielded whenever it is
non-empty. Returns the yielded snapshots in order. -/
def _main (streamItems : List (List ChatMessage)) (gr : List ChatMessage) :
    List (List ChatMessage) :=
  match streamItems with
  | [] => []
  | it :: rest =>
    let gr2 := gr ++ it
    (if gr2.length > 0 then [gr2] else []) ++ _main rest gr2

/-- Identities of the long-lived clients as allocated while efficient.py is
imported and then run as a script. Module level (lines 43-56): the weaviate
client (id 0) and an `AsyncOpenAI()` (id 1) are created, and the three
agents are constructed around the current `async_openai_client` binding
(id 1). Under `__main__` (line 162) `async_openai_client = AsyncOpenAI()`
rebinds the global to a fresh client (id 2); the agents keep the object
they captured. -/
structure ProcessClients where
  weaviate_client : Nat
  openai_global : Nat
  agents_openai_client : Nat
deriving DecidableEq, Repr

/-- Client identities after module import of efficient.py. -/
def moduleClients : ProcessClients :=
  ⟨0, 1, 1⟩

/-- Client identities after the `__main__` block of efficient.py rebinds
`async_openai_client` (line 162). -/
def mainClients : ProcessClients :=
  ⟨moduleClients.weaviate_client, 2, moduleClients.agents_openai_client⟩

/-- The clients that `_cleanup_clients` (lines 59-62) closes: the current
global weaviate client, then the current global `async_openai_client`. -/
def cleanupTargets (s : ProcessClients) : List Nat :=
  [s.weaviate_client, s.openai_global]

end efficient

/-- Closed-flag state of the two shared clients: used to model
`_cleanup_clients` in verbose.py (lines 163-167) and efficient.py
(lines 59-62). -/
structure ClientsState where
  weaviate_closed : Bool
  openai_closed : Bool
deriving DecidableEq, Repr

/-- Modelled from the spec: the knowledge-base client is an out-of-scope
external collaborator (spec section 6); its `close()` capability marks the
client closed and, per the idempotent-teardown requirement of section 5, is
a no-op (raising nothing) when the client is already closed. -/
def weaviateClose (s : ClientsState) : Except String ClientsState :=
  Except.ok ⟨true, s.openai_closed⟩

/-- Modelled from the spec: the model-invocation client is an out-of-scope
external collaborator (spec section 6); its `close()` capability marks the
client closed and is a no-op when already closed. -/
def openaiClose (s : ClientsState) : Except String ClientsState :=
  Except.ok ⟨s.weaviate_closed, true⟩

/-- The `_cleanup_clients` coroutine shared verbatim by both variants:
awaits the weaviate client's close, then the OpenAI client's close; an
exception from either close propagates. -/
def cleanup_clients (s : ClientsState) : Except String ClientsState :=
  match weaviateClose s with
  | Except.error e => Except.error e
  | Except.ok s1 => openaiClose s1

/-- Substring test on strings (used to inspect transcript contents). -/
def strContains (s pat : String) : Bool :=
  (List.range (s.toList.length + 1)).any (fun i => pat.toList.isPrefixOf (s.toList.drop i))

/-- Content of the last message of the last yielded transcript snapshot. -/
def lastYieldContent (t : RunTrace) : String :=
  ((t.yields.getLast?.getD []).getLast?.getD ⟨"", ""⟩).content

/-!
Concrete instantiations of the model-invocation oracles, used to evaluate
the pipeline on explicit inputs.
-/

/-- A two-step plan, as the pydantic `SearchPlan` schema happily validates. -/
def twoStepPlan : SearchPlan :=
  ⟨[⟨"t1", "r1"⟩, ⟨"t2", "r2"⟩]⟩

/-- Per-step results used by `demoOracle`. -/
def demoRes : SearchItem → String × List ChatMessage :=
  fun s => ("summary of " ++ s.search_term, [assistantMessage ("[tool] " ++ s.search_term)])

/-- Oracle where every stage succeeds and the planner returns a two-step plan. -/
def demoOracle : VerboseOracle :=
  ⟨fun _ => Except.ok twoStepPlan,
   fun t => Except.ok ("summary of " ++ t, [assistantMessage ("[tool] " ++ t)]),
   fun _ => Except.ok ⟨"S", "R"⟩⟩

/-- One-step plan whose retrieval finds nothing. -/
def noResultsPlan : SearchPlan :=
  ⟨[⟨"annual fee waiver conditions", "check fee waiver terms"⟩]⟩

/-- Per-step results used by `noResultsOracle`: the research agent reports
that nothing was found for its query. -/
def noResultsRes : SearchItem → String × List ChatMessage :=
  fun s => ("No relevant information was found for: " ++ s.search_term, [])

/-- Oracle where the single search step finds no results (the summary
reports the absence), and the writer emits a fixed report. -/
def noResultsOracle : VerboseOracle :=
  ⟨fun _ => Except.ok noResultsPlan,
   fun t => Except.ok ("No relevant information was found for: " ++ t, []),
   fun _ => Except.ok ⟨"S", "R"⟩⟩

/-- Oracle where the model invocation of the second research step fails. -/
def stepFailOracle : VerboseOracle :=
  ⟨fun _ => Except.ok twoStepPlan,
   fun t => if t = "t1" then Except.ok ("summary of t1", [])
            else Except.error "ModelInvocationFailure: step timed out",
   fun _ => Except.ok ⟨"S", "R"⟩⟩

/-- Per-step results used by `stepFailOracle` on its successful prefix. -/
def stepFailRes : SearchItem → String × List ChatMessage :=
  fun _ => ("summary of t1", [])

/-- Oracle where the planner output fails schema validation
(`final_output_as(SearchPlan)` raises). -/
def parseFailOracle : VerboseOracle :=
  ⟨fun _ => Except.error "SchemaValidationFailure: output did not match SearchPlan",
   fun t => Except.ok ("summary of " ++ t, []),
   fun _ => Except.ok ⟨"S", "R"⟩⟩

/-- Oracle where the writer output fails schema validation
(`final_output_as(ResearchReport)` raises). -/
def writerFailOracle : VerboseOracle :=
  ⟨fun _ => Except.ok twoStepPlan,
   fun t => Except.ok ("summary of " ++ t, []),
   fun _ => Except.error "SchemaValidationFailure: output did not match ResearchReport"⟩

/-- Per-step results used by `writerFailOracle`. -/
def writerFailRes : SearchItem → String × List ChatMessage :=
  fun s => ("summary of " ++ s.search_term, [])

/-!
Helper lemmas shared by the claim theorems.
-/

/-- Characterization of the step loop on the success path: the events are
the expected per-step blocks, the transcript grows by exactly the items of
every step, and the collected summaries are the per-step summaries in plan
order. -/
lemma runSteps_ok (o : VerboseOracle) (res : SearchItem → String × List ChatMessage)
    (steps : List SearchItem) :
    ∀ (gr : List ChatMessage) (acc : List String),
      (∀ s ∈ steps, o.researcherRun s.search_term = Except.ok (res s)) →
      verbose.runSteps o steps gr acc =
        (expectedStepEvents res steps gr,
         Except.ok (gr ++ stepItems res steps, acc ++ stepSummaries res steps)) := by
  induction steps with
  | nil =>
    intro gr acc _
    simp [verbose.runSteps, expectedStepEvents, stepItems, stepSummaries]
  | cons s rest ih =>
    intro gr acc h
    have hs : o.researcherRun s.search_term = Except.ok (res s) := h s (by simp)
    have hrest : ∀ x ∈ rest, o.researcherRun x.search_term = Except.ok (res x) :=
      fun x hx => h x (by simp [hx])
    simp [verbose.runSteps, hs, expectedStepEvents, stepItems, stepSummaries,
      ih _ _ hrest, List.append_assoc]

/-- Full trace of `verbose._main` when the planner, every research step and
the writer succeed. -/
lemma main_ok (o : VerboseOracle) (question : String) (gr0 : List ChatMessage)
    (plan : SearchPlan) (res : SearchItem → String × List ChatMessage)
    (report : ResearchReport)
    (hplan : o.plannerRun question = Except.ok plan)
    (hres : ∀ s ∈ plan.search_steps, o.researcherRun s.search_term = Except.ok (res s))
    (hw : o.writerRun (writerInput question (stepSummaries res plan.search_steps))
        = Except.ok report) :
    verbose._main o question gr0 =
      ⟨[Event.yieldSnapshot (gr0 ++ [userMessage question]),
        Event.planCall question,
        Event.planDone plan,
        Event.yieldSnapshot (gr0 ++ [userMessage question, planMessage plan])] ++
        expectedStepEvents res plan.search_steps
          (gr0 ++ [userMessage question, planMessage plan]) ++
        [Event.writeCall (writerInput question (stepSummaries res plan.search_steps)),
         Event.writeDone report,
         Event.yieldSnapshot
           ((gr0 ++ [userMessage question, planMessage plan] ++
             stepItems res plan.search_steps) ++ [reportMessage report])],
       Except.ok ()⟩ := by
  simp [verbose._main, hplan, runSteps_ok o res plan.search_steps _ _ hres, hw,
    List.append_assoc]

/-- The step loop only ever appends to the transcript: the snapshots it
yields form a prefix chain starting at the transcript it was given, and on
normal return the transcript it hands back is the last snapshot (or the
initial transcript when no step yielded). -/
lemma runSteps_chain (o : VerboseOracle) (steps : List SearchItem) :
    ∀ (gr : List ChatMessage) (acc : List String),
      List.Chain' (fun a b => a <+: b)
        (gr :: eventYields (verbose.runSteps o steps gr acc).1) ∧
      ∀ st, (verbose.runSteps o steps gr acc).2 = Except.ok st →
        (gr :: eventYields (verbose.runSteps o steps gr acc).1).getLast? = some st.1 := by
  induction steps with
  | nil =>
    intro gr acc
    refine ⟨by simp [verbose.runSteps, eventYields], ?_⟩
    intro st hst
    simp [verbose.runSteps] at hst
    simp [verbose.runSteps, eventYields, ← hst]
  | cons s rest ih =>
    intro gr acc
    cases hres : o.researcherRun s.search_term with
    | error e =>
      refine ⟨by simp [verbose.runSteps, hres, eventYields], ?_⟩
      intro st hst
      simp [verbose.runSteps, hres] at hst
    | ok out =>
      have hy : eventYields (verbose.runSteps o (s :: rest) gr acc).1 =
          (gr ++ out.2) ::
            eventYields (verbose.runSteps o rest (gr ++ out.2) (acc ++ [out.1])).1 := by
        simp [verbose.runSteps, hres, eventYields]
      have hout : (verbose.runSteps o (s :: rest) gr acc).2 =
          (verbose.runSteps o rest (gr ++ out.2) (acc ++ [out.1])).2 := by
        simp [verbose.runSteps, hres]
      obtain ⟨ihc, ihl⟩ := ih (gr ++ out.2) (acc ++ [out.1])
      constructor
      · rw [hy]
        exact List.chain'_cons.mpr ⟨List.prefix_append gr out.2, ihc⟩
      · intro st hst
        rw [hout] at hst
        rw [hy, List.getLast?_cons_cons]
        exact ihl st hst

/-- The streaming loop of `efficient._main` only ever appends to the
transcript: the yielded snapshots form a prefix chain starting at the
caller's transcript. -/
lemma efficient_main_chain (items : List (List ChatMessage)) :
    ∀ gr, List.Chain' (fun a b => a <+: b) (gr :: efficient._main items gr) := by
  induction items with
  | nil => intro gr; simp [efficient._main]
  | cons it rest ih =>
    intro gr
    by_cases hlen : (gr ++ it).length > 0
    · have h2 : efficient._main (it :: rest) gr =
          (gr ++ it) :: efficient._main rest (gr ++ it) := by
        simp only [efficient._main]
        rw [if_pos hlen]
        simp
      rw [h2]
      exact List.chain'_cons.mpr ⟨List.prefix_append gr it, ih (gr ++ it)⟩
    · have h0 : gr ++ it = [] := by
        have := Nat.eq_zero_of_not_pos hlen
        exact List.length_eq_zero.mp this
      obtain ⟨hg, hi⟩ := List.append_eq_nil.mp h0
      subst hg hi
      have h2 : efficient._main ([] :: rest) ([] : List ChatMessage) =
          efficient._main rest [] := by
        simp [efficient._main]
      rw [h2]
      exact ih []

/-- The search terms queried by the step loop, in order, are exactly the
planned search terms. -/
lemma expectedStepEvents_searchTerms (res : SearchItem → String × List ChatMessage) :
    ∀ (steps : List SearchItem) (gr : List ChatMessage),
      (expectedStepEvents res steps gr).filterMap Event.searchCallTerm =
        steps.map SearchItem.search_term := by
  intro steps
  induction steps with
  | nil => intro gr; simp [expectedStepEvents]
  | cons s rest ih =>
    intro gr
    simp [expectedStepEvents, Event.searchCallTerm, ih]

/-- The step loop contains no writer invocation events. -/
lemma expectedStepEvents_no_write (res : SearchItem → String × List ChatMessage) :
    ∀ (steps : List SearchItem) (gr : List ChatMessage),
      (expectedStepEvents res steps gr).countP Event.isWrite = 0 := by
  intro steps
  induction steps with
  | nil => intro gr; simp [expectedStepEvents]
  | cons s rest ih =>
    intro gr
    simp [expectedStepEvents, List.countP_cons, Event.isWrite, ih]

/-- The step loop contains no planner invocation events. -/
lemma expectedStepEvents_no_plan (res : SearchItem → String × List ChatMessage) :
    ∀ (steps : List SearchItem) (gr : List ChatMessage),
      (expectedStepEvents res steps gr).countP Event.isPlanInvocation = 0 := by
  intro steps
  induction steps with
  | nil => intro gr; simp [expectedStepEvents]
  | cons s rest ih =>
    intro gr
    simp [expectedStepEvents, List.countP_cons, Event.isPlanInvocation, ih]

/-- Characterization of the step loop when the research-agent run of some
step raises, all earlier steps having succeeded: the loop stops inside that
step's span and the exception propagates. -/
lemma runSteps_err (o : VerboseOracle) (res : SearchItem → String × List ChatMessage)
    (step : SearchItem) (post : List SearchItem) (e : String)
    (hstep : o.researcherRun step.search_term = Except.error e) :
    ∀ (pre : List SearchItem) (gr : List ChatMessage) (acc : List String),
      (∀ s ∈ pre, o.researcherRun s.search_term = Except.ok (res s)) →
      verbose.runSteps o (pre ++ step :: post) gr acc =
        (expectedStepEvents res pre gr ++ [Event.searchCall step.search_term],
         Except.error e) := by
  intro pre
  induction pre with
  | nil =>
    intro gr acc _
    simp [verbose.runSteps, hstep, expectedStepEvents]
  | cons s rest ih =>
    intro gr acc h
    have hs : o.researcherRun s.search_term = Except.ok (res s) := h s (by simp)
    simp [verbose.runSteps, hs, expectedStepEvents,
      ih _ _ (fun x hx => h x (by simp [hx]))]

/-- Extracting yields distributes over event-list concatenation. -/
lemma eventYields_append (a b : List Event) :
    eventYields (a ++ b) = eventYields a ++ eventYields b := by
  simp [eventYields]

/-- The transcript snapshots yielded by `verbose._main` grow append-only
from the caller-supplied transcript, on every oracle and on every
control-flow path (success, planner failure, step failure, writer failure). -/
lemma verbose_main_chain (o : VerboseOracle) (q : String) (gr0 : List ChatMessage) :
    List.Chain' (fun a b => a <+: b) (gr0 :: (verbose._main o q gr0).yields) := by
  cases hp : o.plannerRun q with
  | error e =>
    have hmain : verbose._main o q gr0 =
        ⟨[Event.yieldSnapshot (gr0 ++ [userMessage q]), Event.planCall q],
         Except.error e⟩ := by
      simp [verbose._main, hp]
    rw [hmain]
    have hy : (⟨[Event.yieldSnapshot (gr0 ++ [userMessage q]), Event.planCall q],
        Except.error e⟩ : RunTrace).yields = [gr0 ++ [userMessage q]] := by
      simp [RunTrace.yields, eventYields]
    rw [hy]
    exact List.chain'_cons.mpr ⟨List.prefix_append gr0 _, List.chain'_singleton _⟩
  | ok plan =>
    obtain ⟨hchain, hlast⟩ :=
      runSteps_chain o plan.search_steps (gr0 ++ [userMessage q, planMessage plan]) []
    cases hrs : verbose.runSteps o plan.search_steps
        (gr0 ++ [userMessage q, planMessage plan]) [] with
    | mk evs out =>
      rw [hrs] at hchain hlast
      simp only at hchain hlast
      have hpre0 : (gr0 : List ChatMessage) <+: gr0 ++ [userMessage q] :=
        List.prefix_append gr0 _
      have hpre1 : gr0 ++ [userMessage q] <+: gr0 ++ [userMessage q, planMessage plan] := by
        simp
      cases out with
      | error e =>
        have hmain : (verbose._main o q gr0).yields =
            (gr0 ++ [userMessage q]) :: (gr0 ++ [userMessage q, planMessage plan]) ::
              eventYields evs := by
          simp [verbose._main, hp, hrs, RunTrace.yields, eventYields]
        rw [hmain]
        exact List.chain'_cons.mpr ⟨hpre0, List.chain'_cons.mpr ⟨hpre1, hchain⟩⟩
      | ok st =>
        cases hw : o.writerRun (writerInput q st.2) with
        | error e =>
          have hmain : (verbose._main o q gr0).yields =
              (gr0 ++ [userMessage q]) :: (gr0 ++ [userMessage q, planMessage plan]) ::
                eventYields evs := by
            simp [verbose._main, hp, hrs, hw, RunTrace.yields, eventYields]
          rw [hmain]
          exact List.chain'_cons.mpr ⟨hpre0, List.chain'_cons.mpr ⟨hpre1, hchain⟩⟩
        | ok report =>
          have hmain : (verbose._main o q gr0).yields =
              (gr0 ++ [userMessage q]) :: (gr0 ++ [userMessage q, planMessage plan]) ::
                (eventYields evs ++ [st.1 ++ [reportMessage report]]) := by
            simp [verbose._main, hp, hrs, hw, RunTrace.yields, eventYields]
          rw [hmain]
          refine List.chain'_cons.mpr ⟨hpre0, List.chain'_cons.mpr ⟨hpre1, ?_⟩⟩
          have happ :
              ((gr0 ++ [userMessage q, planMessage plan]) :: eventYields evs) ++
                [st.1 ++ [reportMessage report]] =
              (gr0 ++ [userMessage q, planMessage plan]) ::
                (eventYields evs ++ [st.1 ++ [reportMessage report]]) := by
            simp
          rw [← happ]
          refine (List.chain'_append).mpr ⟨hchain, List.chain'_singleton _, ?_⟩
          intro x hx y hy
          have hx' : x = st.1 := by
            rw [hlast st rfl] at hx
            exact (by simpa using hx : st.1 = x).symm
          have hy' : y = st.1 ++ [reportMessage report] := by
            exact (by simpa using hy : st.1 ++ [reportMessage report] = y).symm
          rw [hx', hy']
          exact List.prefix_append st.1 _

/-!
Claim theorems.
-/

/-- Claim C1, counterexample: in a turn of the explicit-plan pipeline whose
only search step reports that nothing was found for its query, the emitted
final report carries no confidence marking at all — the final transcript
message contains neither the substring "confidence" nor "low" — because
`ResearchReport` has only `summary` and `full_report` fields, so the
claimed downgrade cannot be expressed, let alone performed. -/
theorem C1_counterexample :
    (verbose._main noResultsOracle "q" []).events.countP
        (fun ev => match ev with
          | Event.searchDone s => strContains s "No relevant information"
          | _ => false) = 1 ∧
    strContains (lastYieldContent (verbose._main noResultsOracle "q" [])) "low" = false ∧
    strContains (lastYieldContent (verbose._main noResultsOracle "q" []))
      "confidence" = false ∧
    (verbose._main noResultsOracle "q" []).outcome = Except.ok () := by
  decide

/-- Claim C1, amended: the explicit-plan orchestrator forwards the writer's
structured output unchanged — the last transcript message of a successful
turn is exactly `reportMessage report`, built from the writer's two fields
`summary` and `full_report` alone; `ResearchReport` has no confidence field,
and no stage inspects `no_results` outcomes to downgrade anything. -/
theorem C1_amended_theorem (o : VerboseOracle) (q : String) (gr0 : List ChatMessage)
    (plan : SearchPlan) (res : SearchItem → String × List ChatMessage)
    (report : ResearchReport)
    (hplan : o.plannerRun q = Except.ok plan)
    (hres : ∀ s ∈ plan.search_steps, o.researcherRun s.search_term = Except.ok (res s))
    (hw : o.writerRun (writerInput q (stepSummaries res plan.search_steps))
        = Except.ok report) :
    (verbose._main o q gr0).yields.getLast? =
      some ((gr0 ++ [userMessage q, planMessage plan] ++ stepItems res plan.search_steps)
        ++ [reportMessage report]) := by
  rw [main_ok o q gr0 plan res report hplan hres hw]
  simp only [RunTrace.yields, eventYields, List.filterMap_append]
  have hfin : ∀ (a : List ChatMessage) (l : List (List ChatMessage)) (x : List ChatMessage),
      (a :: (l ++ [x])).getLast? = some x := by
    intro a l x
    rw [← List.cons_append, List.getLast?_concat]
  simp [hfin]

/-- Claim C1, witness for the amended theorem at a concrete no-results run. -/
theorem C1_witness :
    (verbose._main noResultsOracle "q1" []).yields.getLast? =
      some (([] ++ [userMessage "q1", planMessage noResultsPlan]
          ++ stepItems noResultsRes noResultsPlan.search_steps)
        ++ [reportMessage ⟨"S", "R"⟩]) :=
  C1_amended_theorem noResultsOracle "q1" [] noResultsPlan noResultsRes ⟨"S", "R"⟩
    rfl (by decide) rfl

/-- Claim C2: on a successful turn the trace of `verbose._main` is exactly:
the user-message yield, then the planner invocation and the plan yield, then
for each planned step in plan order a research invocation followed by that
step's summary and one yield, then a single writer invocation whose input
collects all step summaries in plan order, the report, and the final yield.
In particular there is one transcript update per completed sub-step, step
summaries appear only after their own retrieval, and synthesis starts only
after every step summary is available. -/
theorem C2_theorem (o : VerboseOracle) (question : String) (gr0 : List ChatMessage)
    (plan : SearchPlan) (res : SearchItem → String × List ChatMessage)
    (report : ResearchReport)
    (hplan : o.plannerRun question = Except.ok plan)
    (hres : ∀ s ∈ plan.search_steps, o.researcherRun s.search_term = Except.ok (res s))
    (hw : o.writerRun (writerInput question (stepSummaries res plan.search_steps))
        = Except.ok report) :
    verbose._main o question gr0 =
      ⟨[Event.yieldSnapshot (gr0 ++ [userMessage question]),
        Event.planCall question,
        Event.planDone plan,
        Event.yieldSnapshot (gr0 ++ [userMessage question, planMessage plan])] ++
        expectedStepEvents res plan.search_steps
          (gr0 ++ [userMessage question, planMessage plan]) ++
        [Event.writeCall (writerInput question (stepSummaries res plan.search_steps)),
         Event.writeDone report,
         Event.yieldSnapshot
           ((gr0 ++ [userMessage question, planMessage plan] ++
             stepItems res plan.search_steps) ++ [reportMessage report])],
       Except.ok ()⟩ :=
  main_ok o question gr0 plan res report hplan hres hw

/-- Claim C2, witness: the trace equation evaluated on a concrete two-step run. -/
theorem C2_witness :
    verbose._main demoOracle "q" [] =
      ⟨[Event.yieldSnapshot ([] ++ [userMessage "q"]),
        Event.planCall "q",
        Event.planDone twoStepPlan,
        Event.yieldSnapshot ([] ++ [userMessage "q", planMessage twoStepPlan])] ++
        expectedStepEvents demoRes twoStepPlan.search_steps
          ([] ++ [userMessage "q", planMessage twoStepPlan]) ++
        [Event.writeCall (writerInput "q" (stepSummaries demoRes twoStepPlan.search_steps)),
         Event.writeDone ⟨"S", "R"⟩,
         Event.yieldSnapshot
           (([] ++ [userMessage "q", planMessage twoStepPlan] ++
             stepItems demoRes twoStepPlan.search_steps) ++ [reportMessage ⟨"S", "R"⟩])],
       Except.ok ()⟩ :=
  C2_theorem demoOracle "q" [] twoStepPlan demoRes ⟨"S", "R"⟩ rfl (by decide) rfl

/-- Claim C3, counterexample: nothing in the code fixes the number of search
steps — the pydantic `SearchPlan` schema validates a plan of any length and
the orchestrator executes it; here a two-step plan is accepted and run to a
successful completion, refuting "exactly 6". -/
theorem C3_counterexample :
    (verbose._main demoOracle "q" []).outcome = Except.ok () ∧
    ((verbose._main demoOracle "q" []).events.filterMap Event.searchCallTerm).length = 2 ∧
    ¬ ((verbose._main demoOracle "q" []).events.filterMap
        Event.searchCallTerm).length = 6 := by
  decide

/-- Claim C3, amended: the number of search steps is not validated anywhere;
whatever plan the planner stage parses into `SearchPlan`, the orchestrator
accepts it and executes exactly the steps it contains, in order — the
counts "exactly 6" (verbose prompt) and "up to 3" (prompts.py) are prompt
text, not enforced shape. -/
theorem C3_amended_theorem (o : VerboseOracle) (q : String) (gr0 : List ChatMessage)
    (plan : SearchPlan) (res : SearchItem → String × List ChatMessage)
    (report : ResearchReport)
    (hplan : o.plannerRun q = Except.ok plan)
    (hres : ∀ s ∈ plan.search_steps, o.researcherRun s.search_term = Except.ok (res s))
    (hw : o.writerRun (writerInput q (stepSummaries res plan.search_steps))
        = Except.ok report) :
    (verbose._main o q gr0).outcome = Except.ok () ∧
    (verbose._main o q gr0).events.filterMap Event.searchCallTerm =
      plan.search_steps.map SearchItem.search_term := by
  rw [main_ok o q gr0 plan res report hplan hres hw]
  refine ⟨rfl, ?_⟩
  simp [List.filterMap_append, expectedStepEvents_searchTerms, Event.searchCallTerm]

/-- Claim C3, witness for the amended theorem at the two-step run. -/
theorem C3_witness :
    (verbose._main demoOracle "q3" []).outcome = Except.ok () ∧
    (verbose._main demoOracle "q3" []).events.filterMap Event.searchCallTerm =
      twoStepPlan.search_steps.map SearchItem.search_term :=
  C3_amended_theorem demoOracle "q3" [] twoStepPlan demoRes ⟨"S", "R"⟩
    rfl (by decide) rfl

/-- Claim C4, counterexample: when the model invocation of the second
research step fails, the turn ends with the propagated exception and the
writer (synthesis) stage is never invoked — the orchestrator does not
proceed on partial evidence. Yet the first step had already produced its
summary. -/
theorem C4_counterexample :
    (verbose._main stepFailOracle "q" []).outcome =
      Except.error "ModelInvocationFailure: step timed out" ∧
    (verbose._main stepFailOracle "q" []).events.countP Event.isWrite = 0 ∧
    (verbose._main stepFailOracle "q" []).events.countP
      (fun ev => match ev with
        | Event.searchDone _ => true
        | _ => false) = 1 := by
  decide

/-- Claim C4, amended: a failure of any research step's model invocation is
fatal to the whole turn, exactly as a planner failure is: the exception
propagates out of the generator, and synthesis is never reached — there is
no marking of the step as unavailable and no partial-evidence path. -/
theorem C4_amended_theorem (o : VerboseOracle) (q : String) (gr0 : List ChatMessage)
    (plan : SearchPlan) (res : SearchItem → String × List ChatMessage)
    (pre post : List SearchItem) (step : SearchItem) (e : String)
    (hplan : o.plannerRun q = Except.ok plan)
    (hsplit : plan.search_steps = pre ++ step :: post)
    (hpre : ∀ s ∈ pre, o.researcherRun s.search_term = Except.ok (res s))
    (hstep : o.researcherRun step.search_term = Except.error e) :
    (verbose._main o q gr0).outcome = Except.error e ∧
    (verbose._main o q gr0).events.countP Event.isWrite = 0 := by
  have hrs := runSteps_err o res step post e hstep pre
    (gr0 ++ [userMessage q, planMessage plan]) [] hpre
  constructor
  · simp [verbose._main, hplan, hsplit, hrs]
  · simp [verbose._main, hplan, hsplit, hrs, List.countP_append, List.countP_cons,
      Event.isWrite, expectedStepEvents_no_write]

/-- Claim C4, witness for the amended theorem at the concrete failing run. -/
theorem C4_witness :
    (verbose._main stepFailOracle "q4" []).outcome =
      Except.error "ModelInvocationFailure: step timed out" ∧
    (verbose._main stepFailOracle "q4" []).events.countP Event.isWrite = 0 :=
  C4_amended_theorem stepFailOracle "q4" [] twoStepPlan stepFailRes
    [⟨"t1", "r1"⟩] [] ⟨"t2", "r2"⟩ "ModelInvocationFailure: step timed out"
    rfl rfl (by decide) (by decide)

/-- Claim C5, counterexample: when the planner output fails schema
validation, the generator raises instead of surfacing any degraded message:
the turn's transcript ends with only the echoed user message — no assistant
message of any kind is appended. -/
theorem C5_counterexample :
    verbose._main parseFailOracle "q" [] =
      ⟨[Event.yieldSnapshot [userMessage "q"], Event.planCall "q"],
       Except.error "SchemaValidationFailure: output did not match SearchPlan"⟩ ∧
    (verbose._main parseFailOracle "q" []).yields.map (List.map ChatMessage.role) =
      [["user"]] := by
  decide

/-- Claim C5, amended: a schema-validation failure of the plan or of the
final report is fatal to the stage and to the turn: the exception
propagates out of the generator, no degraded message is appended to the
transcript, and no guessed data is substituted (the trace simply stops at
the failed stage's invocation). -/
theorem C5_amended_theorem :
    (∀ (o : VerboseOracle) (q : String) (gr0 : List ChatMessage) (e : String),
       o.plannerRun q = Except.error e →
       verbose._main o q gr0 =
         ⟨[Event.yieldSnapshot (gr0 ++ [userMessage q]), Event.planCall q],
          Except.error e⟩) ∧
    (∀ (o : VerboseOracle) (q : String) (gr0 : List ChatMessage) (plan : SearchPlan)
       (res : SearchItem → String × List ChatMessage) (e : String),
       o.plannerRun q = Except.ok plan →
       (∀ s ∈ plan.search_steps, o.researcherRun s.search_term = Except.ok (res s)) →
       o.writerRun (writerInput q (stepSummaries res plan.search_steps)) =
         Except.error e →
       verbose._main o q gr0 =
         ⟨[Event.yieldSnapshot (gr0 ++ [userMessage q]),
           Event.planCall q,
           Event.planDone plan,
           Event.yieldSnapshot (gr0 ++ [userMessage q, planMessage plan])] ++
           expectedStepEvents res plan.search_steps
             (gr0 ++ [userMessage q, planMessage plan]) ++
           [Event.writeCall (writerInput q (stepSummaries res plan.search_steps))],
          Except.error e⟩) := by
  constructor
  · intro o q gr0 e h
    simp [verbose._main, h]
  · intro o q gr0 plan res e hplan hres hw
    simp [verbose._main, hplan, runSteps_ok o res plan.search_steps _ _ hres, hw,
      List.append_assoc]

/-- Claim C5, witness: both failure shapes evaluated on concrete runs. -/
theorem C5_witness :
    (verbose._main parseFailOracle "q5" [] =
      ⟨[Event.yieldSnapshot ([] ++ [userMessage "q5"]), Event.planCall "q5"],
       Except.error "SchemaValidationFailure: output did not match SearchPlan"⟩) ∧
    (verbose._main writerFailOracle "q6" [] =
      ⟨[Event.yieldSnapshot ([] ++ [userMessage "q6"]),
        Event.planCall "q6",
        Event.planDone twoStepPlan,
        Event.yieldSnapshot ([] ++ [userMessage "q6", planMessage twoStepPlan])] ++
        expectedStepEvents writerFailRes twoStepPlan.search_steps
          ([] ++ [userMessage "q6", planMessage twoStepPlan]) ++
        [Event.writeCall (writerInput "q6" (stepSummaries writerFailRes
          twoStepPlan.search_steps))],
       Except.error "SchemaValidationFailure: output did not match ResearchReport"⟩) :=
  ⟨C5_amended_theorem.1 parseFailOracle "q5" []
      "SchemaValidationFailure: output did not match SearchPlan" rfl,
   C5_amended_theorem.2 writerFailOracle "q6" [] twoStepPlan writerFailRes
      "SchemaValidationFailure: output did not match ResearchReport"
      rfl (by decide) rfl⟩

/-- Claim C6, counterexample: a run whose single evidence pack is plainly
incomplete (the step summary reports that nothing was found) performs zero
re-query refinement cycles, not one: the planner is invoked exactly once and
the search term is queried exactly once. -/
theorem C6_counterexample :
    (verbose._main noResultsOracle "q7" []).events.filterMap Event.searchCallTerm =
      ["annual fee waiver conditions"] ∧
    (verbose._main noResultsOracle "q7" []).events.countP Event.isPlanInvocation = 1 ∧
    (verbose._main noResultsOracle "q7" []).events.countP
      (fun ev => match ev with
        | Event.searchDone s => strContains s "No relevant information"
        | _ => false) = 1 ∧
    (verbose._main noResultsOracle "q7" []).outcome = Except.ok () := by
  decide

/-- Claim C6, amended: the explicit-plan orchestrator contains no refinement
mechanism at all: whatever the retrieved evidence looks like, the planner is
invoked exactly once per turn and each planned search term is queried
exactly once, in plan order; the one-refinement-cycle allowance exists only
in the prompt text of `PLANNER_INSTRUCTIONS` in prompts.py (used by the
delegated-tool variant), not in control flow. -/
theorem C6_amended_theorem (o : VerboseOracle) (q : String) (gr0 : List ChatMessage)
    (plan : SearchPlan) (res : SearchItem → String × List ChatMessage)
    (report : ResearchReport)
    (hplan : o.plannerRun q = Except.ok plan)
    (hres : ∀ s ∈ plan.search_steps, o.researcherRun s.search_term = Except.ok (res s))
    (hw : o.writerRun (writerInput q (stepSummaries res plan.search_steps))
        = Except.ok report) :
    (verbose._main o q gr0).events.countP Event.isPlanInvocation = 1 ∧
    (verbose._main o q gr0).events.filterMap Event.searchCallTerm =
      plan.search_steps.map SearchItem.search_term := by
  rw [main_ok o q gr0 plan res report hplan hres hw]
  constructor
  · simp [List.countP_append, List.countP_cons, Event.isPlanInvocation,
      expectedStepEvents_no_plan]
  · simp [List.filterMap_append, expectedStepEvents_searchTerms, Event.searchCallTerm]

/-- Claim C6, witness for the amended theorem at the concrete no-results run. -/
theorem C6_witness :
    (verbose._main noResultsOracle "q8" []).events.countP Event.isPlanInvocation = 1 ∧
    (verbose._main noResultsOracle "q8" []).events.filterMap Event.searchCallTerm =
      noResultsPlan.search_steps.map SearchItem.search_term :=
  C6_amended_theorem noResultsOracle "q8" [] noResultsPlan noResultsRes ⟨"S", "R"⟩
    rfl (by decide) rfl

/-- Claim C7, counterexample: in the efficient (delegated-tool) variant the
worker agent is handed the knowledge-base search tool but is constructed
without `tool_choice="required"`, so nothing in the code forces it to invoke
retrieval before producing output — tool use is not mandatory in both
variants. -/
theorem C7_counterexample :
    mustCallTool efficient.worker_agent = false ∧
    efficient.worker_agent.tools = ["search_knowledgebase"] := by
  decide

/-- Claim C7, amended: forced tool use holds only in the verbose variant:
its research agent is constructed with `tool_choice="required"`, while the
efficient variant's worker, retriever and main agents all use the SDK
default (no forced tool choice), leaving tool use to instruction text. -/
theorem C7_amended_theorem :
    mustCallTool verbose.research_agent = true ∧
    verbose.research_agent.tools = ["search_knowledgebase"] ∧
    mustCallTool efficient.worker_agent = false ∧
    mustCallTool efficient.retriever_agent = false ∧
    mustCallTool efficient.main_agent = false := by
  decide

/-- Claim C8: in efficient.py the `__main__` block rebinds
`async_openai_client` to a fresh `AsyncOpenAI` after the agents have already
captured the module-level instance, so the cleanup run on interrupt closes
the fresh client and the weaviate client, while the model client the agents
actually use is not among the closed clients — contradicting the spec's
interrupt scenario. (Before the rebinding, the agents' client was the one
cleanup would close.) -/
theorem C8_theorem :
    efficient.moduleClients.agents_openai_client ∈
      efficient.cleanupTargets efficient.moduleClients ∧
    efficient.mainClients.agents_openai_client ∉
      efficient.cleanupTargets efficient.mainClients := by
  decide

/-- Claim C9: `_cleanup_clients` closes the weaviate client and then the
model client in one ordered sequence, raises nothing, and is idempotent: a
first invocation returns normally with both clients closed, and a second
invocation on the resulting state returns normally and changes nothing. -/
theorem C9_theorem (s : ClientsState) :
    cleanup_clients s = Except.ok ⟨true, true⟩ ∧
    cleanup_clients ⟨true, true⟩ = Except.ok ⟨true, true⟩ :=
  ⟨rfl, rfl⟩

/-- Claim C10: in both pipeline variants the orchestrator only ever appends
to the caller-supplied transcript: the caller's list followed by the yielded
snapshots forms a chain under the list-prefix order, so a message present in
one snapshot stays at the same position in every later snapshot. -/
theorem C10_theorem :
    (∀ (o : VerboseOracle) (q : String) (gr0 : List ChatMessage),
       List.Chain' (fun a b => a <+: b) (gr0 :: (verbose._main o q gr0).yields)) ∧
    (∀ (items : List (List ChatMessage)) (gr : List ChatMessage),
       List.Chain' (fun a b => a <+: b) (gr :: efficient._main items gr)) :=
  ⟨verbose_main_chain, fun items gr => efficient_main_chain items gr⟩

